import Mathlib

/-!
Verification of the HEVC high-level-syntax generator
(libavcodec/vaapi_encode_h265.c): picture-type classification, short-term
reference-picture-set construction, parameter derivation, picture-order-count
tracking, SEI metadata composition and access-unit emission, shallowly
embedded as executable Lean definitions with theorems checking the
documented behaviour.
-/

/-- Abstract picture role, as assigned by the external scheduler
(PICTURE_TYPE_IDR / _I / _P / _B). -/
inductive PictureType where
  | IDR
  | I
  | P
  | B
deriving DecidableEq, Repr

/-- HEVC NAL unit type codes (Annex B, bit-exact). -/
def HEVC_NAL_TRAIL_N : Nat := 0

def HEVC_NAL_TRAIL_R : Nat := 1

def HEVC_NAL_RASL_N : Nat := 8

def HEVC_NAL_IDR_W_RADL : Nat := 19

def HEVC_NAL_CRA_NUT : Nat := 21

def HEVC_NAL_AUD : Nat := 35

/-- Slice type of the one slice of a picture (HEVC_SLICE_I / _P / _B). -/
inductive SliceType where
  | I
  | P
  | B
deriving DecidableEq, Repr

/-- Output of the picture-type classifier part of
vaapi_encode_h265_init_picture_params (lines 659-688): the slice NAL unit
type, slice type, AUD pic_type tag, and the updated last_idr_frame. -/
structure ClassifyOutput where
  slice_nal_unit : Nat
  slice_type : SliceType
  pic_type : Nat
  last_idr_frame : Nat
deriving DecidableEq, Repr

/-- Picture-type classifier, translated from
vaapi_encode_h265_init_picture_params lines 659-688.  refTypes lists the
picture types of the reference pictures of the current picture; the B branch
reads the type of the second reference (pic.refs[1].type in the source). -/
def classifyPicture (last_idr_frame : Nat) (display_order : Nat)
    (ptype : PictureType) (refTypes : List PictureType) : ClassifyOutput :=
  match ptype with
  | PictureType.IDR => ⟨HEVC_NAL_IDR_W_RADL, SliceType.I, 0, display_order⟩
  | PictureType.I => ⟨HEVC_NAL_CRA_NUT, SliceType.I, 0, last_idr_frame⟩
  | PictureType.P => ⟨HEVC_NAL_TRAIL_R, SliceType.P, 1, last_idr_frame⟩
  | PictureType.B =>
      ⟨if refTypes.get? 1 = some PictureType.I
         then HEVC_NAL_RASL_N else HEVC_NAL_TRAIL_N,
       SliceType.B, 2, last_idr_frame⟩

/-- NAL unit type demanded by claim C2 as stated: RASL_N whenever the second
reference of a B picture is an I or an IDR picture. -/
def c2ClaimNalUnit (ptype : PictureType) (refTypes : List PictureType) : Nat :=
  match ptype with
  | PictureType.IDR => HEVC_NAL_IDR_W_RADL
  | PictureType.I => HEVC_NAL_CRA_NUT
  | PictureType.P => HEVC_NAL_TRAIL_R
  | PictureType.B =>
      if refTypes.get? 1 = some PictureType.I ∨
         refTypes.get? 1 = some PictureType.IDR
        then HEVC_NAL_RASL_N else HEVC_NAL_TRAIL_N

/-- NAL unit type of the amended claim C2: RASL_N exactly when the second
reference of a B picture is a non-IDR intra (I) picture; an IDR second
reference yields TRAIL_N. -/
def c2AmendedNalUnit (ptype : PictureType) (refTypes : List PictureType) : Nat :=
  match ptype with
  | PictureType.IDR => HEVC_NAL_IDR_W_RADL
  | PictureType.I => HEVC_NAL_CRA_NUT
  | PictureType.P => HEVC_NAL_TRAIL_R
  | PictureType.B =>
      if refTypes.get? 1 = some PictureType.I
        then HEVC_NAL_RASL_N else HEVC_NAL_TRAIL_N

/-- Slice type of the table in section 4.2 of the spec. -/
def c2SliceTypeOf (ptype : PictureType) : SliceType :=
  match ptype with
  | PictureType.IDR => SliceType.I
  | PictureType.I => SliceType.I
  | PictureType.P => SliceType.P
  | PictureType.B => SliceType.B

/-- The fields of AVPixFmtDescriptor read by the chroma-format derivation. -/
structure AVPixFmtDescriptor where
  nb_components : Nat
  log2_chroma_w : Nat
  log2_chroma_h : Nat
deriving DecidableEq, Repr

/-- Value assigned to the chroma_format local in
vaapi_encode_h265_init_sequence_params lines 282-295.  In the final else
branch the source only logs an error and assigns nothing, so the local stays
uninitialized: modelled as none. -/
def chromaFormatOf (desc : AVPixFmtDescriptor) : Option Nat :=
  if desc.nb_components = 1 then some 0
  else if desc.log2_chroma_w = 1 ∧ desc.log2_chroma_h = 1 then some 1
  else if desc.log2_chroma_w = 1 ∧ desc.log2_chroma_h = 0 then some 2
  else if desc.log2_chroma_w = 0 ∧ desc.log2_chroma_h = 0 then some 3
  else none

/-- Return value contributed by the chroma-format check in
vaapi_encode_h265_init_sequence_params: no branch of lines 282-295 returns,
so execution falls through and the function continues toward its final
return 0 in every case, including the unsupported-chroma branch. -/
def chromaCheckReturn (_desc : AVPixFmtDescriptor) : Int := 0

/-- Pixel format descriptor of yuv411p: 3 components, log2 chroma width 2,
log2 chroma height 0, a combination taken by none of the supported cases. -/
def yuv411pDesc : AVPixFmtDescriptor := ⟨3, 2, 0⟩

/-- The per-picture inputs of the picture-order-count derivation. -/
structure PocPicture where
  display_order : Nat
  ptype : PictureType
deriving DecidableEq, Repr

/-- sps.log2_max_pic_order_cnt_lsb_minus4, fixed to 8 at line 406. -/
def log2_max_pic_order_cnt_lsb_minus4 : Nat := 8

/-- One step of the stream state update of
vaapi_encode_h265_init_picture_params (lines 659-689): last_idr_frame is set
to the display order when the picture is an IDR, and pic_order_cnt is the
display order minus the updated last_idr_frame. -/
def pocStep (last_idr_frame : Nat) (pic : PocPicture) : Nat × Int :=
  let updated :=
    if pic.ptype = PictureType.IDR then pic.display_order else last_idr_frame
  (updated, (pic.display_order : Int) - (updated : Int))

/-- slice_pic_order_cnt_lsb from lines 864-865: the bit-and of pic_order_cnt
with (1 shifted left by log2_max_pic_order_cnt_lsb_minus4 + 4) minus 1, which
on a twos-complement int keeps the low 12 bits, that is the nonnegative
residue modulo 2 to the 12. -/
def slicePicOrderCntLsb (pic_order_cnt : Int) : Int :=
  pic_order_cnt % ((2 : Int) ^ (log2_max_pic_order_cnt_lsb_minus4 + 4))

/-- slice_pic_order_cnt_lsb values emitted while processing a list of
pictures in encode order, threading last_idr_frame through pocStep. -/
def pocTrace (last_idr_frame : Nat) : List PocPicture → List Int
  | [] => []
  | pic :: rest =>
      let out := pocStep last_idr_frame pic
      slicePicOrderCntLsb out.2 :: pocTrace out.1 rest

/-- Claim-side tracking for C4: the display order of the most recent IDR
picture among the processed prefix, defaulting to the initial value. -/
def lastIdrDisplayOrder (init : Nat) (processed : List PocPicture) : Nat :=
  processed.foldl
    (fun acc pic =>
      if pic.ptype = PictureType.IDR then pic.display_order else acc)
    init

/-- SPS conformance window fields. -/
structure ConformanceWindow where
  conformance_window_flag : Bool
  conf_win_left_offset : Nat
  conf_win_right_offset : Nat
  conf_win_top_offset : Nat
  conf_win_bottom_offset : Nat
deriving DecidableEq, Repr

/-- Conformance-window derivation from
vaapi_encode_h265_init_sequence_params lines 390-401; in the matching-size
branch the offsets stay at the zeros written by the memset at line 276. -/
def spsConformanceWindow (width height surface_width surface_height : Nat) :
    ConformanceWindow :=
  if width ≠ surface_width ∨ height ≠ surface_height then
    ⟨true, 0, (surface_width - width) / 2, 0, (surface_height - height) / 2⟩
  else
    ⟨false, 0, 0, 0, 0⟩

/-- Result of vaapi_encode_h265_write_access_unit (lines 88-112): the return
code, the required bit size named by the error log when the buffer is too
small, the caller buffer contents after the call, and the value of data_len
after the call. -/
structure WriteAccessUnitResult where
  ret : Int
  reported_required_bits : Option Nat
  data : List Nat
  data_len : Nat
deriving DecidableEq, Repr

/-- AVERROR(ENOSPC): the negated errno value reported when the serialized
access unit does not fit the caller buffer. -/
def AVERROR_ENOSPC : Int := -28

/-- vaapi_encode_h265_write_access_unit, lines 88-112, after the external
serializer produced au_data bytes with au_data_bit_padding padding bits in
the last byte.  When data_len is below the serialized bit size the function
logs the required size and returns AVERROR(ENOSPC) before the memcpy, so the
caller buffer and data_len are untouched; otherwise it copies the bytes and
stores the exact bit size into data_len. -/
def vaapi_encode_h265_write_access_unit
    (data : List Nat) (data_len : Nat)
    (au_data : List Nat) (au_data_bit_padding : Nat) : WriteAccessUnitResult :=
  let required := 8 * au_data.length - au_data_bit_padding
  if data_len < required then
    ⟨AVERROR_ENOSPC, some required, data, data_len⟩
  else
    ⟨0, none, au_data ++ data.drop au_data.length, required⟩

/-- A picture as seen by the short-term-RPS builder: the scheduler window
entries carry encode order, display order, picture type and the reference
list.  Pointer identity between VAAPIEncodePicture records is modelled by
the id field, and a reference list is the list of ids of the referenced
pictures. -/
structure EncPicture where
  id : Nat
  display_order : Nat
  encode_order : Nat
  ptype : PictureType
  refs : List Nat
deriving DecidableEq, Repr

/-- The short-term reference picture set written into the slice header:
parallel (delta_poc_minus1, used_by_curr_pic_flag) entries of the negative
and the positive set, in append order. -/
structure STRefPicSet where
  negative : List (Nat × Bool)
  positive : List (Nat × Bool)
deriving DecidableEq, Repr

/-- The used test of lines 882-886: st is used exactly when some entry of
pic.refs is st (pointer comparison, here id membership). -/
def picRefsContain (pic : EncPicture) (st : EncPicture) : Bool :=
  pic.refs.contains st.id

/-- The forward scan of lines 894-902: some window picture rp with encode
order at least that of pic is a B picture whose first reference is st and
whose second reference is pic (rp.refs[0] == st and rp.refs[1] == pic in the
source). -/
def raslHoldoverExists (window : List EncPicture) (pic st : EncPicture) : Bool :=
  window.any fun rp =>
    decide (pic.encode_order ≤ rp.encode_order) &&
    decide (rp.ptype = PictureType.B) &&
    (rp.refs.get? 0 == some st.id) &&
    (rp.refs.get? 1 == some pic.id)

/-- One iteration of the window loop of lines 877-920 for window entry st:
skip pictures not yet in the DPB, skip unused pictures without a RASL
holdover, and otherwise append the delta and used flag to the negative or
the positive set according to the display-order comparison. -/
def rpsStep (window : List EncPicture) (pic : EncPicture)
    (rps : STRefPicSet) (st : EncPicture) : STRefPicSet :=
  if pic.encode_order ≤ st.encode_order then rps
  else if picRefsContain pic st = false ∧
          raslHoldoverExists window pic st = false then rps
  else if st.display_order < pic.display_order then
    { rps with
      negative := rps.negative ++
        [(pic.display_order - st.display_order - 1, picRefsContain pic st)] }
  else
    { rps with
      positive := rps.positive ++
        [(st.display_order - pic.display_order - 1, picRefsContain pic st)] }

/-- The short-term RPS built for pic by the loop of lines 877-920,
traversing the live-picture window in order. -/
def buildShortTermRPS (window : List EncPicture) (pic : EncPicture) :
    STRefPicSet :=
  window.foldl (rpsStep window pic) ⟨[], []⟩

/-- Inclusion condition implemented by rpsStep: st is already in the DPB and
is either a reference of pic or kept for a RASL holdover. -/
def rpsIncluded (window : List EncPicture) (pic st : EncPicture) : Bool :=
  decide (st.encode_order < pic.encode_order) &&
  (picRefsContain pic st || raslHoldoverExists window pic st)

/-- Negative-set entries produced by traversing l inside window. -/
def rpsNegEntries (window : List EncPicture) (pic : EncPicture)
    (l : List EncPicture) : List (Nat × Bool) :=
  (l.filter fun st =>
      rpsIncluded window pic st &&
      decide (st.display_order < pic.display_order)).map
    fun st => (pic.display_order - st.display_order - 1, picRefsContain pic st)

/-- Positive-set entries produced by traversing l inside window. -/
def rpsPosEntries (window : List EncPicture) (pic : EncPicture)
    (l : List EncPicture) : List (Nat × Bool) :=
  (l.filter fun st =>
      rpsIncluded window pic st &&
      !decide (st.display_order < pic.display_order)).map
    fun st => (st.display_order - pic.display_order - 1, picRefsContain pic st)

/-- Claim-side RASL condition of C1: some live B picture RP with
RP.encode_order at least P.encode_order has reference list exactly
[ST, P]. -/
def c1RaslWitness (window : List EncPicture) (pic st : EncPicture) : Bool :=
  window.any fun rp =>
    decide (pic.encode_order ≤ rp.encode_order ∧
            rp.ptype = PictureType.B ∧ rp.refs = [st.id, pic.id])

/-- Claim-side negative set of C1: every live ST already encoded, either a
reference of P (used) or justified by a RASL holdover, displayed before P,
with delta P.display_order minus ST.display_order minus 1. -/
def c1NegativeSide (window : List EncPicture) (pic : EncPicture) :
    List (Nat × Bool) :=
  (window.filter fun st =>
      decide (st.encode_order < pic.encode_order) &&
      (decide (st.id ∈ pic.refs) || c1RaslWitness window pic st) &&
      decide (st.display_order < pic.display_order)).map
    fun st =>
      (pic.display_order - st.display_order - 1, decide (st.id ∈ pic.refs))

/-- Claim-side positive set of C1, for ST displayed at or after P, with
delta ST.display_order minus P.display_order minus 1. -/
def c1PositiveSide (window : List EncPicture) (pic : EncPicture) :
    List (Nat × Bool) :=
  (window.filter fun st =>
      decide (st.encode_order < pic.encode_order) &&
      (decide (st.id ∈ pic.refs) || c1RaslWitness window pic st) &&
      !decide (st.display_order < pic.display_order)).map
    fun st =>
      (st.display_order - pic.display_order - 1, decide (st.id ∈ pic.refs))

/-- Picture A of the C1 window: display 0, encode 0, IDR, no references. -/
def picA : EncPicture := ⟨0, 0, 0, PictureType.IDR, []⟩

/-- Picture B of the C1 window: display 1, encode 2, P, references [A]. -/
def picB : EncPicture := ⟨1, 1, 2, PictureType.P, [0]⟩

/-- Picture C of the C1 window: display 2, encode 1, B, references [A, B]. -/
def picC : EncPicture := ⟨2, 2, 1, PictureType.B, [0, 1]⟩

/-- The live-picture window of C1, ordered by encode order. -/
def exampleWindow : List EncPicture := [picA, picC, picB]

/-- The FFMIN macro: ((a) > (b) ? (b) : (a)). -/
def FFMIN {α : Type} [LinearOrder α] (a b : α) : α :=
  if a > b then b else a

/-- Mastering-display side data (AVMasteringDisplayMetadata): three display
primaries and the white point as rational CIE xy chromaticity pairs, the
luminance range, and the validity flags.  av_q2d of an AVRational is the
exact rational value here. -/
structure AVMasteringDisplayMetadata where
  display_primaries : Fin 3 → ℚ × ℚ
  white_point : ℚ × ℚ
  min_luminance : ℚ
  max_luminance : ℚ
  has_primaries : Bool
  has_luminance : Bool

/-- Content-light-level side data (AVContentLightMetadata); both fields are
unsigned in the source. -/
structure AVContentLightMetadata where
  MaxCLL : Nat
  MaxFALL : Nat
deriving DecidableEq, Repr

/-- SEI toggle bit for the mastering-display payload (0x08). -/
def SEI_MASTERING_DISPLAY : Nat := 8

/-- SEI toggle bit for the content-light-level payload (0x10). -/
def SEI_CONTENT_LIGHT_LEVEL : Nat := 16

/-- Condition of lines 710-721 under which the mastering-display payload is
composed and its needed bit is set: toggle enabled, picture type I or IDR,
side data attached, and both has_primaries and has_luminance set. -/
def masteringSeiWanted (sei : Nat) (ptype : PictureType)
    (sd : Option AVMasteringDisplayMetadata) : Bool :=
  decide (sei &&& SEI_MASTERING_DISPLAY ≠ 0) &&
  (decide (ptype = PictureType.I) || decide (ptype = PictureType.IDR)) &&
  (match sd with
   | some mdm => mdm.has_primaries && mdm.has_luminance
   | none => false)

/-- Condition of lines 758-764 under which the content-light-level payload
is composed: toggle enabled, picture type I or IDR, side data attached. -/
def cllSeiWanted (sei : Nat) (ptype : PictureType)
    (sd : Option AVContentLightMetadata) : Bool :=
  decide (sei &&& SEI_CONTENT_LIGHT_LEVEL ≠ 0) &&
  (decide (ptype = PictureType.I) || decide (ptype = PictureType.IDR)) &&
  decide sd.isSome

/-- The sei_needed bitmask accumulated by
vaapi_encode_h265_init_picture_params lines 705-775: cleared to zero, then
the mastering-display bit and the content-light-level bit are set when the
respective payload is composed. -/
def computeSeiNeeded (sei : Nat) (ptype : PictureType)
    (mdmSd : Option AVMasteringDisplayMetadata)
    (cllSd : Option AVContentLightMetadata) : Nat :=
  (if masteringSeiWanted sei ptype mdmSd then SEI_MASTERING_DISPLAY else 0) |||
  (if cllSeiWanted sei ptype cllSd then SEI_CONTENT_LIGHT_LEVEL else 0)

/-- The mastering-display SEI payload record; field values are the integer
results of the C expressions assigned at lines 728-751. -/
structure H265RawSEIMasteringDisplayColourVolume where
  display_primaries_x : Fin 3 → ℤ
  display_primaries_y : Fin 3 → ℤ
  white_point_x : ℤ
  white_point_y : ℤ
  max_display_mastering_luminance : ℤ
  min_display_mastering_luminance : ℤ

/-- The index permutation mapping = {1, 2, 0} of line 724. -/
def primariesMapping : Fin 3 → Fin 3 := ![1, 2, 0]

/-- Quantization applied to each chroma coordinate at lines 730-745:
FFMIN(lrint(50000 * value), 50000); lrint is rounding to nearest. -/
def quantChroma (v : ℚ) : ℤ :=
  FFMIN (round ((50000 : ℚ) * v)) 50000

/-- Composition of the mastering-display payload from the side data, lines
724-751: chroma coordinates quantized by quantChroma through the index
permutation, maximum luminance lrint(10000 * value), minimum luminance the
same quantization clamped by FFMIN to the computed maximum. -/
def composeMasteringDisplay (mdm : AVMasteringDisplayMetadata) :
    H265RawSEIMasteringDisplayColourVolume :=
  let maxLum := round ((10000 : ℚ) * mdm.max_luminance)
  { display_primaries_x := fun i =>
      quantChroma (mdm.display_primaries (primariesMapping i)).1
    display_primaries_y := fun i =>
      quantChroma (mdm.display_primaries (primariesMapping i)).2
    white_point_x := quantChroma mdm.white_point.1
    white_point_y := quantChroma mdm.white_point.2
    max_display_mastering_luminance := maxLum
    min_display_mastering_luminance :=
      FFMIN (round ((10000 : ℚ) * mdm.min_luminance)) maxLum }

/-- The content-light-level SEI payload record. -/
structure H265RawSEIContentLightLevelInfo where
  max_content_light_level : Nat
  max_pic_average_light_level : Nat
deriving DecidableEq, Repr

/-- Composition of the content-light-level payload, lines 770-771: each
field clamped by FFMIN to 65535. -/
def composeContentLightLevel (clm : AVContentLightMetadata) :
    H265RawSEIContentLightLevelInfo :=
  ⟨FFMIN clm.MaxCLL 65535, FFMIN clm.MaxFALL 65535⟩

/-- Claim-side chroma quantization of C7 as stated: round(value * 50000)
clamped to the interval [0, 50000]. -/
def c7ClaimChroma (v : ℚ) : ℤ :=
  max 0 (min (round ((50000 : ℚ) * v)) 50000)

/-- Mastering-display side data whose coordinates are all -1: a concrete
input on which the missing lower clamp is visible. -/
def negativeMdm : AVMasteringDisplayMetadata :=
  { display_primaries := fun _ => (-1, -1)
    white_point := (-1, -1)
    min_luminance := 0
    max_luminance := 1000
    has_primaries := true
    has_luminance := true }

/-- Mastering-display side data with ordinary nonnegative values (BT.709
white point, 1000 nit maximum, 0.005 nit minimum). -/
def sampleMdm : AVMasteringDisplayMetadata :=
  { display_primaries := fun _ => (64/100, 33/100)
    white_point := (3127/10000, 3290/10000)
    min_luminance := 1/200
    max_luminance := 1000
    has_primaries := true
    has_luminance := true }

/-- Content-light-level side data with ordinary values. -/
def sampleClm : AVContentLightMetadata := ⟨1000, 400⟩

/-- A NAL unit added to the current access unit, identified by the writer
structure it was built from.  audOptionField records the unit added at line
204, where the source passes the address of the integer aud option field
instead of the raw AUD structure. -/
inductive NalRecord where
  | rawAud
  | audOptionField
  | vps
  | sps
  | pps
  | sliceNal
  | sei (payload_types : List Nat)
deriving DecidableEq, Repr

/-- The per-picture emission flags threaded through the three packed-header
entry points. -/
structure HeaderState where
  aud_needed : Bool
  sei_needed : Nat
deriving DecidableEq, Repr

/-- SEI payload type mastering-display-colour-volume. -/
def HEVC_SEI_TYPE_MASTERING_DISPLAY_INFO : Nat := 137

/-- SEI payload type content-light-level-info. -/
def HEVC_SEI_TYPE_CONTENT_LIGHT_LEVEL_INFO : Nat := 144

/-- vaapi_encode_h265_write_sequence_header, lines 133-163: the raw AUD
first when aud_needed is set (clearing the flag), then VPS, SPS and PPS. -/
def writeSequenceHeader (s : HeaderState) : HeaderState × List NalRecord :=
  let step :=
    if s.aud_needed then ({ s with aud_needed := false }, [NalRecord.rawAud])
    else (s, ([] : List NalRecord))
  (step.1, step.2 ++ [NalRecord.vps, NalRecord.sps, NalRecord.pps])

/-- vaapi_encode_h265_write_slice_header, lines 165-189: the raw AUD first
when aud_needed is set (clearing the flag), then the slice. -/
def writeSliceHeader (s : HeaderState) : HeaderState × List NalRecord :=
  let step :=
    if s.aud_needed then ({ s with aud_needed := false }, [NalRecord.rawAud])
    else (s, ([] : List NalRecord))
  (step.1, step.2 ++ [NalRecord.sliceNal])

/-- vaapi_encode_h265_write_extra_header, lines 191-255.  When sei_needed is
zero it returns AVERROR_EOF (none).  Otherwise, when aud_needed is set it
adds the unit at address priv->aud, which is the integer AUD option field
and not priv->raw_aud, then builds one SEI NAL whose payload list holds the
mastering-display payload first when its bit is set, then the
content-light-level payload when its bit is set, and clears sei_needed. -/
def writeExtraHeader (s : HeaderState) : Option (HeaderState × List NalRecord) :=
  if s.sei_needed ≠ 0 then
    let step :=
      if s.aud_needed then
        ({ s with aud_needed := false }, [NalRecord.audOptionField])
      else (s, ([] : List NalRecord))
    let payloads :=
      (if step.1.sei_needed &&& SEI_MASTERING_DISPLAY ≠ 0
         then [HEVC_SEI_TYPE_MASTERING_DISPLAY_INFO] else []) ++
      (if step.1.sei_needed &&& SEI_CONTENT_LIGHT_LEVEL ≠ 0
         then [HEVC_SEI_TYPE_CONTENT_LIGHT_LEVEL_INFO] else [])
    some ({ step.1 with sei_needed := 0 }, step.2 ++ [NalRecord.sei payloads])
  else none

/-- C2 counterexample: for a B picture whose second reference is an IDR
picture, the classifier yields TRAIL_N, while the claim as stated demands
RASL_N for an I or IDR second reference. -/
theorem c2_classifier_counterexample :
    (classifyPicture 0 5 PictureType.B
        [PictureType.P, PictureType.IDR]).slice_nal_unit = HEVC_NAL_TRAIL_N ∧
    c2ClaimNalUnit PictureType.B [PictureType.P, PictureType.IDR] =
      HEVC_NAL_RASL_N ∧
    (classifyPicture 0 5 PictureType.B
        [PictureType.P, PictureType.IDR]).slice_nal_unit ≠
      c2ClaimNalUnit PictureType.B [PictureType.P, PictureType.IDR] := by
  refine ⟨by decide, by decide, by decide⟩

/-- C2 amended: for every picture the classifier yields the NAL unit type of
the section 4.2 table with the B row amended to RASL_N exactly when the
second reference is a non-IDR intra (I) picture, and the slice type of the
table. -/
theorem c2_classifier_table (last_idr_frame display_order : Nat)
    (ptype : PictureType) (refTypes : List PictureType) :
    (classifyPicture last_idr_frame display_order ptype refTypes).slice_nal_unit =
      c2AmendedNalUnit ptype refTypes ∧
    (classifyPicture last_idr_frame display_order ptype refTypes).slice_type =
      c2SliceTypeOf ptype := by
  cases ptype <;>
    simp [classifyPicture, c2AmendedNalUnit, c2SliceTypeOf]

/-- C3: on an input pixel format with unsupported chroma subsampling
(yuv411p: 3 components, log2 chroma 2 and 0) the code logs an error but
falls through without returning one, so the function result is 0 and the
chroma_format local is never assigned; for the supported combinations the
derived chroma_format_idc values are 0, 1, 2 and 3 as claimed. -/
theorem c3_unsupported_chroma_code_bug :
    chromaFormatOf yuv411pDesc = none ∧
    chromaCheckReturn yuv411pDesc = 0 ∧
    chromaFormatOf ⟨1, 0, 0⟩ = some 0 ∧
    chromaFormatOf ⟨3, 1, 1⟩ = some 1 ∧
    chromaFormatOf ⟨3, 1, 0⟩ = some 2 ∧
    chromaFormatOf ⟨3, 0, 0⟩ = some 3 := by
  refine ⟨by decide, by decide, by decide, by decide, by decide, by decide⟩

/-- C5: the conformance window flag is set exactly when the aligned surface
size differs from the requested size; with equal sizes all offsets are zero,
and otherwise the left and top offsets are zero while the right and bottom
offsets are half the width and height differences. -/
theorem c5_conformance_window (w h sw sh : Nat) :
    ((spsConformanceWindow w h sw sh).conformance_window_flag = true ↔
       ¬(w = sw ∧ h = sh)) ∧
    (w = sw ∧ h = sh → spsConformanceWindow w h sw sh = ⟨false, 0, 0, 0, 0⟩) ∧
    (¬(w = sw ∧ h = sh) →
       spsConformanceWindow w h sw sh =
         ⟨true, 0, (sw - w) / 2, 0, (sh - h) / 2⟩) := by
  unfold spsConformanceWindow
  by_cases hw : w = sw <;> by_cases hh : h = sh <;>
    simp [hw, hh]

/-- C5 witness: a 1920 by 1080 request on a 1920 by 1088 aligned surface
yields the conformance window with bottom offset 4 and the other offsets
zero. -/
theorem c5_conformance_window_witness :
    spsConformanceWindow 1920 1080 1920 1088 = ⟨true, 0, 0, 0, 4⟩ := by
  have h := (c5_conformance_window 1920 1080 1920 1088).2.2 (by decide)
  rw [h]

/-- C8: when the caller-provided bit length is smaller than the serialized
bit size 8 times data_size minus data_bit_padding, writing the access unit
returns AVERROR(ENOSPC), reports that required bit size, writes nothing into
the caller buffer and leaves data_len unchanged; otherwise it copies the
serialized bytes and sets data_len to exactly the serialized bit size. -/
theorem c8_capacity_error (data : List Nat) (data_len : Nat)
    (au_data : List Nat) (au_data_bit_padding : Nat) :
    (data_len < 8 * au_data.length - au_data_bit_padding →
       vaapi_encode_h265_write_access_unit data data_len au_data
           au_data_bit_padding =
         ⟨AVERROR_ENOSPC, some (8 * au_data.length - au_data_bit_padding),
          data, data_len⟩) ∧
    (8 * au_data.length - au_data_bit_padding ≤ data_len →
       vaapi_encode_h265_write_access_unit data data_len au_data
           au_data_bit_padding =
         ⟨0, none, au_data ++ data.drop au_data.length,
          8 * au_data.length - au_data_bit_padding⟩) := by
  unfold vaapi_encode_h265_write_access_unit
  constructor
  · intro hlt
    simp [hlt]
  · intro hge
    simp [Nat.not_lt.mpr hge]

/-- C8 witness: a 2-byte serialized unit with 3 padding bits needs 13 bits;
a 5-bit buffer triggers the error with the required size reported and the
buffer and length untouched, while a 13-bit buffer succeeds. -/
theorem c8_capacity_error_witness :
    vaapi_encode_h265_write_access_unit [9, 9, 9] 5 [1, 2] 3 =
      ⟨AVERROR_ENOSPC, some 13, [9, 9, 9], 5⟩ ∧
    vaapi_encode_h265_write_access_unit [9, 9, 9] 13 [1, 2] 3 =
      ⟨0, none, [1, 2, 9], 13⟩ := by
  constructor
  · exact (c8_capacity_error [9, 9, 9] 5 [1, 2] 3).1 (by decide)
  · exact (c8_capacity_error [9, 9, 9] 13 [1, 2] 3).2 (by decide)

/-- C9: with the AUD toggle enabled and both SEI payloads needed, the
sequence-header and slice-header entry points each begin their access unit
with the raw AUD NAL, but the extra-header entry point, running first with
aud_needed set, adds the unit at the address of the integer aud option field
instead of the raw AUD structure, so no AUD NAL precedes the SEI. -/
theorem c9_extra_header_aud_code_bug :
    writeExtraHeader ⟨true, 24⟩ =
      some (⟨false, 0⟩, [NalRecord.audOptionField, NalRecord.sei [137, 144]]) ∧
    NalRecord.rawAud ∉ [NalRecord.audOptionField, NalRecord.sei [137, 144]] ∧
    (writeSequenceHeader ⟨true, 24⟩).2.head? = some NalRecord.rawAud ∧
    (writeSliceHeader ⟨true, 24⟩).2.head? = some NalRecord.rawAud := by
  refine ⟨by decide, by decide, by decide, by decide⟩

/-- C4: the i-th emitted slice_pic_order_cnt_lsb equals the display order of
the i-th picture minus the display order of the most recent IDR picture
processed so far, reduced modulo 2 to the 12 (the fixed
log2_max_pic_order_cnt_lsb_minus4 of 8 plus 4 bits). -/
theorem c4_slice_poc_lsb (init : Nat) (pics : List PocPicture) (i : Nat)
    (hi : i < pics.length) :
    (pocTrace init pics).getD i 0 =
      (((pics.getD i ⟨0, PictureType.IDR⟩).display_order : Int) -
        (lastIdrDisplayOrder init (pics.take (i + 1)) : Int)) % 2 ^ 12 := by
  induction pics generalizing init i with
  | nil => exact absurd hi (by simp)
  | cons p rest ih =>
    cases i with
    | zero =>
      simp [pocTrace, pocStep, lastIdrDisplayOrder, slicePicOrderCntLsb,
            log2_max_pic_order_cnt_lsb_minus4]
    | succ j =>
      have hj : j < rest.length := by simpa using hi
      have h := ih (if p.ptype = PictureType.IDR then p.display_order else init) j hj
      simpa [pocTrace, pocStep, lastIdrDisplayOrder] using h

/-- C4 witness: after an IDR at display order 0, a picture at display order
4100 gets slice_pic_order_cnt_lsb 4, that is 4100 modulo 4096. -/
theorem c4_slice_poc_lsb_witness :
    1 < ([⟨0, PictureType.IDR⟩, ⟨4100, PictureType.P⟩] : List PocPicture).length ∧
    (pocTrace 0 [⟨0, PictureType.IDR⟩, ⟨4100, PictureType.P⟩]).getD 1 0 = 4 := by
  constructor
  · decide
  · have h := c4_slice_poc_lsb 0
      [⟨0, PictureType.IDR⟩, ⟨4100, PictureType.P⟩] 1 (by decide)
    rw [h]
    decide

/-- C6: the mastering-display needed bit is set if and only if the toggle
bit is enabled, the picture type is I or IDR, and the attached side data has
both has_primaries and has_luminance set; a missing side data simply leaves
the bit clear. -/
theorem c6_mastering_sei_iff (sei : Nat) (ptype : PictureType)
    (mdmSd : Option AVMasteringDisplayMetadata)
    (cllSd : Option AVContentLightMetadata) :
    computeSeiNeeded sei ptype mdmSd cllSd &&& SEI_MASTERING_DISPLAY ≠ 0 ↔
      (sei &&& SEI_MASTERING_DISPLAY ≠ 0 ∧
       (ptype = PictureType.I ∨ ptype = PictureType.IDR) ∧
       ∃ mdm, mdmSd = some mdm ∧ mdm.has_primaries = true ∧
              mdm.has_luminance = true) := by
  have hmask : ∀ a b : Bool,
      (((if a then SEI_MASTERING_DISPLAY else 0) |||
        (if b then SEI_CONTENT_LIGHT_LEVEL else 0)) &&&
        SEI_MASTERING_DISPLAY ≠ 0) ↔ a = true := by
    decide
  rw [computeSeiNeeded, hmask]
  unfold masteringSeiWanted
  cases mdmSd with
  | none => simp
  | some m =>
    simp [Bool.and_eq_true, Bool.or_eq_true, decide_eq_true_eq, and_assoc]

/-- C10: whenever at least one SEI payload was marked needed, the
extra-header entry point emits a single SEI NAL holding the needed payloads
with the mastering-display payload first and the content-light-level payload
second, preceded only by the unit taken for the AUD when aud_needed was
still set; the payload count is the number of needed payloads and is
positive, the needed flag is cleared, and a further extra-header call
returns the not-needed signal. -/
theorem c10_extra_header_sei (aud : Bool) (sei : Nat) (ptype : PictureType)
    (mdmSd : Option AVMasteringDisplayMetadata)
    (cllSd : Option AVContentLightMetadata)
    (h : computeSeiNeeded sei ptype mdmSd cllSd ≠ 0) :
    writeExtraHeader ⟨aud, computeSeiNeeded sei ptype mdmSd cllSd⟩ =
      some (⟨false, 0⟩,
        (if aud then [NalRecord.audOptionField] else []) ++
        [NalRecord.sei
          ((if masteringSeiWanted sei ptype mdmSd
              then [HEVC_SEI_TYPE_MASTERING_DISPLAY_INFO] else []) ++
           (if cllSeiWanted sei ptype cllSd
              then [HEVC_SEI_TYPE_CONTENT_LIGHT_LEVEL_INFO] else []))]) ∧
    ((if masteringSeiWanted sei ptype mdmSd
        then [HEVC_SEI_TYPE_MASTERING_DISPLAY_INFO] else []) ++
     (if cllSeiWanted sei ptype cllSd
        then [HEVC_SEI_TYPE_CONTENT_LIGHT_LEVEL_INFO] else [])).length =
      (if masteringSeiWanted sei ptype mdmSd then 1 else 0) +
      (if cllSeiWanted sei ptype cllSd then 1 else 0) ∧
    0 < ((if masteringSeiWanted sei ptype mdmSd then 1 else 0) +
         (if cllSeiWanted sei ptype cllSd then 1 else 0)) ∧
    writeExtraHeader ⟨false, 0⟩ = none := by
  unfold computeSeiNeeded at h ⊢
  cases hm : masteringSeiWanted sei ptype mdmSd <;>
    cases hc : cllSeiWanted sei ptype cllSd <;>
      rw [hm, hc] at h <;> cases aud <;>
        first
          | (exfalso; exact h (by decide))
          | decide

/-- C10 witness: with both toggles on, an IDR picture, and both side-data
records attached, the extra header emits one SEI NAL with payload types
[137, 144] and clears the needed flag. -/
theorem c10_extra_header_sei_witness :
    computeSeiNeeded 24 PictureType.IDR (some sampleMdm) (some sampleClm) ≠ 0 ∧
    writeExtraHeader
        ⟨false, computeSeiNeeded 24 PictureType.IDR (some sampleMdm) (some sampleClm)⟩ =
      some (⟨false, 0⟩, [NalRecord.sei [137, 144]]) := by
  constructor
  · decide
  · have h := c10_extra_header_sei false 24 PictureType.IDR
      (some sampleMdm) (some sampleClm) (by decide)
    rw [h.1]
    decide

/-- The FFMIN macro computes the binary minimum. -/
theorem FFMIN_eq_min {α : Type} [LinearOrder α] (a b : α) :
    FFMIN a b = min a b := by
  unfold FFMIN
  rcases le_or_lt a b with hab | hab
  · rw [if_neg (not_lt.mpr hab), min_eq_left hab]
  · rw [if_pos hab, min_eq_right hab.le]

/-- Rounding a nonnegative rational to the nearest integer is
nonnegative. -/
theorem round_nonneg_of_nonneg {x : ℚ} (hx : 0 ≤ x) : 0 ≤ round x := by
  rw [round_eq]
  exact Int.le_floor.mpr (by push_cast; linarith)

/-- C7 counterexample: on side data whose white point is (-1, -1) the
composed white_point_x is -50000, while the claim as stated (round then
clamp to [0, 50000]) demands 0: the source clamps from above only. -/
theorem c7_chroma_clamp_counterexample :
    (composeMasteringDisplay negativeMdm).white_point_x = -50000 ∧
    c7ClaimChroma (-1 : ℚ) = 0 ∧
    (composeMasteringDisplay negativeMdm).white_point_x ≠
      c7ClaimChroma negativeMdm.white_point.1 := by
  have hr : round ((50000 : ℚ) * (-1 : ℚ)) = (-50000 : ℤ) := by
    have hq : ((50000 : ℚ) * (-1 : ℚ)) = ((-50000 : ℤ) : ℚ) := by norm_num
    rw [hq, round_intCast]
  have hx : (composeMasteringDisplay negativeMdm).white_point_x =
      FFMIN (round ((50000 : ℚ) * (-1 : ℚ))) 50000 := rfl
  have h1 : (composeMasteringDisplay negativeMdm).white_point_x = -50000 := by
    rw [hx, hr, FFMIN_eq_min]
    norm_num
  have h2 : c7ClaimChroma (-1 : ℚ) = 0 := by
    unfold c7ClaimChroma
    rw [hr]
    norm_num
  refine ⟨h1, h2, ?_⟩
  have h3 : c7ClaimChroma negativeMdm.white_point.1 = c7ClaimChroma (-1 : ℚ) := rfl
  rw [h1, h3, h2]
  norm_num

/-- C7 amended: each chroma coordinate equals round(value times 50000)
clamped from above to 50000 (no lower clamp; for a nonnegative input this
coincides with the [0, 50000] clamp of the original claim), the maximum
luminance is round(value times 10000), the minimum luminance is the same
quantization clamped to not exceed the computed maximum, and each
content-light-level field is the attached value clamped to at most
65535. -/
theorem c7_amended_quantization (mdm : AVMasteringDisplayMetadata)
    (clm : AVContentLightMetadata) :
    (∀ i : Fin 3,
       (composeMasteringDisplay mdm).display_primaries_x i =
         min (round ((50000 : ℚ) *
           (mdm.display_primaries (primariesMapping i)).1)) 50000 ∧
       (composeMasteringDisplay mdm).display_primaries_y i =
         min (round ((50000 : ℚ) *
           (mdm.display_primaries (primariesMapping i)).2)) 50000) ∧
    (composeMasteringDisplay mdm).white_point_x =
      min (round ((50000 : ℚ) * mdm.white_point.1)) 50000 ∧
    (composeMasteringDisplay mdm).white_point_y =
      min (round ((50000 : ℚ) * mdm.white_point.2)) 50000 ∧
    (composeMasteringDisplay mdm).max_display_mastering_luminance =
      round ((10000 : ℚ) * mdm.max_luminance) ∧
    (composeMasteringDisplay mdm).min_display_mastering_luminance =
      min (round ((10000 : ℚ) * mdm.min_luminance))
        ((composeMasteringDisplay mdm).max_display_mastering_luminance) ∧
    (composeMasteringDisplay mdm).min_display_mastering_luminance ≤
      (composeMasteringDisplay mdm).max_display_mastering_luminance ∧
    (0 ≤ mdm.white_point.1 →
       (composeMasteringDisplay mdm).white_point_x =
         c7ClaimChroma mdm.white_point.1) ∧
    (composeContentLightLevel clm).max_content_light_level =
      min clm.MaxCLL 65535 ∧
    (composeContentLightLevel clm).max_pic_average_light_level =
      min clm.MaxFALL 65535 ∧
    (composeContentLightLevel clm).max_content_light_level ≤ 65535 ∧
    (composeContentLightLevel clm).max_pic_average_light_level ≤ 65535 := by
  refine ⟨fun i => ⟨?_, ?_⟩, ?_, ?_, ?_, ?_, ?_, ?_, ?_, ?_, ?_, ?_⟩
  · simp [composeMasteringDisplay, quantChroma, FFMIN_eq_min]
  · simp [composeMasteringDisplay, quantChroma, FFMIN_eq_min]
  · simp [composeMasteringDisplay, quantChroma, FFMIN_eq_min]
  · simp [composeMasteringDisplay, quantChroma, FFMIN_eq_min]
  · simp [composeMasteringDisplay]
  · simp [composeMasteringDisplay, FFMIN_eq_min]
  · simp only [composeMasteringDisplay, FFMIN_eq_min]
    exact min_le_right _ _
  · intro hv
    have h0 : 0 ≤ round ((50000 : ℚ) * mdm.white_point.1) :=
      round_nonneg_of_nonneg (mul_nonneg (by norm_num) hv)
    have hx : (composeMasteringDisplay mdm).white_point_x =
        min (round ((50000 : ℚ) * mdm.white_point.1)) 50000 := by
      simp [composeMasteringDisplay, quantChroma, FFMIN_eq_min]
    rw [hx, c7ClaimChroma,
        max_eq_right (le_min h0 (by norm_num))]
  · simp [composeContentLightLevel, FFMIN_eq_min]
  · simp [composeContentLightLevel, FFMIN_eq_min]
  · simp only [composeContentLightLevel, FFMIN_eq_min]
    exact min_le_right _ _
  · simp only [composeContentLightLevel, FFMIN_eq_min]
    exact min_le_right _ _

/-- C7 amended witness: for a nonnegative white point the composed value
matches the claimed clamp form, and a MaxCLL of 70000 is clamped to
65535. -/
theorem c7_amended_quantization_witness :
    (0 : ℚ) ≤ sampleMdm.white_point.1 ∧
    (composeMasteringDisplay sampleMdm).white_point_x =
      c7ClaimChroma sampleMdm.white_point.1 ∧
    (composeContentLightLevel ⟨70000, 400⟩).max_content_light_level = 65535 := by
  obtain ⟨-, -, -, -, -, -, hwp, hcll, -, -, -⟩ :=
    c7_amended_quantization sampleMdm ⟨70000, 400⟩
  refine ⟨by norm_num [sampleMdm], hwp (by norm_num [sampleMdm]), ?_⟩
  rw [hcll]
  decide

/-- The used flag computed by the inner loop of lines 882-886 is membership
of the id of st in the reference list of pic. -/
theorem picRefsContain_eq_mem (pic st : EncPicture) :
    picRefsContain pic st = decide (st.id ∈ pic.refs) := by
  simp [picRefsContain, List.contains]

/-- For a window entry rp with two references when it is a B picture, the
slot checks rp.refs[0] == st and rp.refs[1] == pic of the source coincide
with the reference list being exactly [st, pic]. -/
theorem rasl_cond_eq (pic st rp : EncPicture)
    (h2 : rp.ptype = PictureType.B → rp.refs.length = 2) :
    (decide (pic.encode_order ≤ rp.encode_order) &&
     decide (rp.ptype = PictureType.B) &&
     (rp.refs.get? 0 == some st.id) &&
     (rp.refs.get? 1 == some pic.id)) =
    decide (pic.encode_order ≤ rp.encode_order ∧
            rp.ptype = PictureType.B ∧ rp.refs = [st.id, pic.id]) := by
  by_cases hb : rp.ptype = PictureType.B
  · have hlen := h2 hb
    rcases hr : rp.refs with _ | ⟨x, rest1⟩
    · rw [hr] at hlen
      simp at hlen
    · rcases rest1 with _ | ⟨y, rest2⟩
      · rw [hr] at hlen
        simp at hlen
      · rcases rest2 with _ | ⟨z, rest3⟩
        · rw [Bool.eq_iff_iff]
          simp [hb, hr, and_assoc]
        · rw [hr] at hlen
          simp at hlen
  · rw [Bool.eq_iff_iff]
    simp [hb]

/-- Under the data-model invariant that B pictures carry exactly two
references, the forward RASL scan of the source agrees with the claim-side
condition that some live B picture with encode order at least that of pic
has reference list exactly [st, pic]. -/
theorem rasl_eq_c1 (pic st : EncPicture) :
    ∀ window : List EncPicture,
      (∀ rp ∈ window, rp.ptype = PictureType.B → rp.refs.length = 2) →
      raslHoldoverExists window pic st = c1RaslWitness window pic st := by
  intro window
  induction window with
  | nil => intro _; rfl
  | cons rp rest ih =>
    intro hB
    have hrest := ih fun q hq => hB q (List.mem_cons_of_mem rp hq)
    have hhead := rasl_cond_eq pic st rp (hB rp (List.mem_cons_self rp rest))
    unfold raslHoldoverExists c1RaslWitness at hrest ⊢
    simp only [List.any_cons]
    rw [hhead, hrest]

/-- The window fold of lines 877-920 appends exactly the filtered and
bucketed entries of the traversed list to the accumulated set. -/
theorem rps_foldl_spec (window : List EncPicture) (pic : EncPicture)
    (l : List EncPicture) (acc : STRefPicSet) :
    l.foldl (rpsStep window pic) acc =
      ⟨acc.negative ++ rpsNegEntries window pic l,
       acc.positive ++ rpsPosEntries window pic l⟩ := by
  induction l generalizing acc with
  | nil =>
    simp [rpsNegEntries, rpsPosEntries]
  | cons st rest ih =>
    rw [List.foldl_cons, ih]
    by_cases h1 : pic.encode_order ≤ st.encode_order
    · have hlt : ¬ st.encode_order < pic.encode_order := Nat.not_lt.mpr h1
      simp [rpsStep, rpsIncluded, rpsNegEntries, rpsPosEntries,
            List.filter_cons, h1, hlt]
    · have hlt : st.encode_order < pic.encode_order := not_le.mp h1
      cases hc : picRefsContain pic st <;>
        cases hr : raslHoldoverExists window pic st <;>
          by_cases hd : st.display_order < pic.display_order <;>
            simp [rpsStep, rpsIncluded, rpsNegEntries, rpsPosEntries,
                  List.filter_cons, h1, hlt, hc, hr, hd, List.append_assoc]

/-- C1: for a window whose B pictures each carry exactly two references, the
short-term RPS built for pic lists, in traversal order, exactly the live
pictures already encoded that are either references of pic (used flag true)
or retained for a RASL holdover (used flag false), bucketed into the
negative set with delta pic.display_order minus st.display_order minus 1
when displayed before pic and into the positive set with delta
st.display_order minus pic.display_order minus 1 otherwise. -/
theorem c1_short_term_rps (window : List EncPicture) (pic : EncPicture)
    (hB : ∀ rp ∈ window, rp.ptype = PictureType.B → rp.refs.length = 2) :
    (buildShortTermRPS window pic).negative = c1NegativeSide window pic ∧
    (buildShortTermRPS window pic).positive = c1PositiveSide window pic := by
  have hfun : ∀ st, rpsIncluded window pic st =
      (decide (st.encode_order < pic.encode_order) &&
       (decide (st.id ∈ pic.refs) || c1RaslWitness window pic st)) := by
    intro st
    unfold rpsIncluded
    rw [picRefsContain_eq_mem, rasl_eq_c1 pic st window hB]
  have hmapneg : (fun st : EncPicture =>
      (pic.display_order - st.display_order - 1, picRefsContain pic st)) =
      (fun st : EncPicture =>
        (pic.display_order - st.display_order - 1,
         decide (st.id ∈ pic.refs))) := by
    funext st
    rw [picRefsContain_eq_mem]
  have hmappos : (fun st : EncPicture =>
      (st.display_order - pic.display_order - 1, picRefsContain pic st)) =
      (fun st : EncPicture =>
        (st.display_order - pic.display_order - 1,
         decide (st.id ∈ pic.refs))) := by
    funext st
    rw [picRefsContain_eq_mem]
  unfold buildShortTermRPS
  rw [rps_foldl_spec window pic window ⟨[], []⟩]
  constructor
  · show [] ++ rpsNegEntries window pic window = c1NegativeSide window pic
    rw [List.nil_append]
    unfold rpsNegEntries c1NegativeSide
    rw [hmapneg]
    congr 1
    apply List.filter_congr
    intro st _
    rw [hfun st]
  · show [] ++ rpsPosEntries window pic window = c1PositiveSide window pic
    rw [List.nil_append]
    unfold rpsPosEntries c1PositiveSide
    rw [hmappos]
    congr 1
    apply List.filter_congr
    intro st _
    rw [hfun st]

/-- C1 witness: the window A (display 0, encode 0, IDR), B (display 1,
encode 2, P, refs [A]), C (display 2, encode 1, B, refs [A, B]) satisfies
the invariant, and the RPS built for B has exactly one negative entry with
delta 0 and used flag true, and no positive entries. -/
theorem c1_short_term_rps_witness :
    (∀ rp ∈ exampleWindow, rp.ptype = PictureType.B → rp.refs.length = 2) ∧
    (buildShortTermRPS exampleWindow picB).negative = [(0, true)] ∧
    (buildShortTermRPS exampleWindow picB).positive = [] := by
  have hB : ∀ rp ∈ exampleWindow, rp.ptype = PictureType.B →
      rp.refs.length = 2 := by
    intro rp hrp
    simp only [exampleWindow, List.mem_cons, List.not_mem_nil, or_false] at hrp
    rcases hrp with h | h | h <;> subst h <;> decide
  have h := c1_short_term_rps exampleWindow picB hB
  refine ⟨hB, ?_, ?_⟩
  · rw [h.1]
    decide
  · rw [h.2]
    decide

